import Mathlib

/-
  Shallow embedding of the AgentHub backend (realyinchen/AgentHub).

  Sources embedded here:
  - src/app/agents/agentic_rag/graph.py        (control loop, conditional edges)
  - src/app/agents/agentic_rag/nodes/coordinator.py
  - src/app/agents/agentic_rag/nodes/grade_documents.py
  - src/app/utils/message_utils.py             (streaming encoder, input handling)
  - src/app/schema/chat_message.py             (server ChatMessage)
  - src/app/schema/user_input.py               (UserInput)
  - src/app/schemas/chat.py                    (client ChatMessage used for decoding)

  External collaborators (LLM graders, the vector store, langgraph's astream) are
  modelled as oracle parameters / explicit event scripts, exactly at the interface
  the code consumes them.  Python exceptions are modelled with `Except Unit`.
-/

namespace AgentHub

/-- Minimal JSON value universe, standing for Python dict/list/str/int/bool/None
payloads (tool-call arguments, response metadata, resume payloads). -/
inductive Json where
  | null
  | bool (b : Bool)
  | num (n : Int)
  | str (s : String)
  | arr (xs : List Json)
  | obj (fields : List (String × Json))
deriving Repr

/-- A LangChain document: `page_content` plus metadata (qdrant source info). -/
structure Document where
  page_content : String
  metadata : List (String × Json) := []
deriving Repr

/-- A LangChain `ToolCall`: name, argument mapping, identifier. -/
structure ToolCall where
  name : String
  args : List (String × Json)
  id : Option String
deriving Repr

/-- One element of a LangChain message-content list: either a plain string or a
content-block dict carrying a `type` tag and (optionally) a `text` key.  A dict
of type `text` without a `text` key raises `KeyError` in the source. -/
inductive ContentItem where
  | str (s : String)
  | item (ty : String) (txt : Option String)
deriving Repr

/-- LangChain message content: `str | list[str | dict]`. -/
inductive LCContent where
  | str (s : String)
  | items (l : List ContentItem)
deriving Repr

/-- Python truthiness of a message content value (`if content:`):
a string is truthy iff non-empty, a list iff non-empty. -/
def LCContent.truthy : LCContent → Bool
  | .str s => !(s == "")
  | .items l => !l.isEmpty

/-- Embeds `convert_message_content_to_string` (message_utils.py, lines 23-33).
The `Except` error marks the `KeyError` raised by `content_item["text"]` when a
`text`-typed block has no `text` key. -/
def collectText : List ContentItem → Except Unit (List String)
  | [] => .ok []
  | .str s :: rest => (collectText rest).map (s :: ·)
  | .item ty txt :: rest =>
    if ty == "text" then
      match txt with
      | some t => (collectText rest).map (t :: ·)
      | none => .error ()
    else
      collectText rest

/-- The conversion itself: a plain string is returned as is; a list is folded by
keeping string items and the `text` of `text`-typed blocks, then joined. -/
def convert_message_content_to_string : LCContent → Except Unit String
  | .str s => .ok s
  | .items l => (collectText l).map String.join

/-- The LangChain message union the backend handles: Human / AI (with tool
calls and response metadata) / Tool (with a tool_call_id) / anything else
(e.g. `InterruptMessage`), which `langchain_to_chat_message` rejects. -/
inductive LCMessage where
  | human (content : LCContent)
  | ai (content : LCContent) (tool_calls : List ToolCall)
      (response_metadata : List (String × Json))
  | tool (content : LCContent) (tool_call_id : String)
  | other
deriving Repr

/-- The `type` literal of the server `ChatMessage`
(app/schema/chat_message.py: `Literal["human", "ai", "tool", "interrupt"]`). -/
inductive CMType where
  | human
  | ai
  | tool
  | interrupt
deriving Repr, DecidableEq

/-- String form of the `type` literal, as serialized by `model_dump`. -/
def CMType.toStr : CMType → String
  | .human => "human"
  | .ai => "ai"
  | .tool => "tool"
  | .interrupt => "interrupt"

/-- Server-side `ChatMessage` (app/schema/chat_message.py).  Field order below
matches the pydantic field order, which is the `model_dump` key order. -/
structure ChatMessage where
  type : CMType
  content : String
  tool_calls : List ToolCall := []
  tool_call_id : Option String := none
  response_metadata : List (String × Json) := []
  action_requests : List Json := []
  review_configs : List Json := []
deriving Repr

/-- Embeds `langchain_to_chat_message` (message_utils.py, lines 36-63).
The `Except` error covers both the `ValueError` of the fall-through case and a
`KeyError` escaping the content conversion.  The AI branch assigns
`tool_calls` / `response_metadata` only when truthy, mirroring the source's
`if message.tool_calls:` / `if message.response_metadata:` guards. -/
def langchain_to_chat_message : LCMessage → Except Unit ChatMessage
  | .human c => (convert_message_content_to_string c).map fun s =>
      { type := .human, content := s }
  | .ai c tcs meta => (convert_message_content_to_string c).map fun s =>
      let m : ChatMessage := { type := .ai, content := s }
      let m := if tcs.isEmpty then m else { m with tool_calls := tcs }
      if meta.isEmpty then m else { m with response_metadata := meta }
  | .tool c tcid => (convert_message_content_to_string c).map fun s =>
      { type := .tool, content := s, tool_call_id := some tcid }
  | .other => .error ()

/-! ### The agentic-RAG control loop (agents/agentic_rag/graph.py) -/

/-- Node identifiers of the workflow graph, plus the `END` terminal. -/
inductive Node where
  | coordinator
  | retrieve
  | grade_documents
  | websearch
  | rag_answer
  | direct_answer
  | reporter
  | terminal
deriving Repr, DecidableEq

/-- The router's `datasource` literal
(chains/router.py: `Literal["vector_store", "web_search", "direct_answer"]`). -/
inductive Route where
  | vector_store
  | web_search
  | direct_answer
deriving Repr, DecidableEq

/-- Embeds `route_question` (graph.py): maps the router's datasource to the
next node. -/
def route_question : Route → Node
  | .vector_store => .retrieve
  | .web_search => .websearch
  | .direct_answer => .direct_answer

/-- Embeds `decide_to_generate` (graph.py): `WEBSEARCH if state["web_search"]
else RAG_ANSWER`. -/
def decide_to_generate (web_search : Bool) : Node :=
  if web_search then .websearch else .rag_answer

/-- Records which grader chains `grade_generation_grounded_in_documents_and_question`
invokes, in invocation order. -/
inductive GraderCall where
  | hallucination
  | answer
deriving Repr, DecidableEq

/-- Embeds `grade_generation_grounded_in_documents_and_question` (graph.py,
lines 32-54), parameterized by the two grader oracles
(`hallucination_grader : documents × generation -> binary_score : bool`,
`answer_grader : question × generation -> binary_score : bool`).  The second
component is the instrumentation trace of oracle invocations, in order. -/
def grade_generation (hallucination_grader : String → String → Bool)
    (answer_grader : String → String → Bool)
    (question : String) (docs : List Document) (generation : String) :
    String × List GraderCall :=
  let documents := String.intercalate "\n\n" (docs.map Document.page_content)
  if hallucination_grader documents generation then
    if answer_grader question generation then
      ("useful", [.hallucination, .answer])
    else
      ("not useful", [.hallucination, .answer])
  else
    ("not supported", [.hallucination])

/-- The edge mapping of the `RAG_ANSWER` conditional edge (graph.py):
`{"not supported": RAG_ANSWER, "useful": REPORTER, "not useful": WEBSEARCH}`. -/
def verdict_edge (verdict : String) : Option Node :=
  if verdict == "not supported" then some .rag_answer
  else if verdict == "useful" then some .reporter
  else if verdict == "not useful" then some .websearch
  else none

/-- Classifier outputs consumed by one step of the graph: the router label, the
`web_search` state flag, and the two self-critique grader verdicts. -/
structure ClassifierOutcomes where
  route : Route
  web_search_flag : Bool
  grounded : Bool
  useful : Bool

/-- One transition of the compiled workflow (the `add_edge` /
`add_conditional_edges` wiring of graph.py), given the classifier outcomes of
this node visit. -/
def graph_step (o : ClassifierOutcomes) : Node → Node
  | .coordinator => route_question o.route
  | .retrieve => .grade_documents
  | .grade_documents => decide_to_generate o.web_search_flag
  | .rag_answer =>
      ((verdict_edge
        (grade_generation (fun _ _ => o.grounded) (fun _ _ => o.useful)
          "" [] "").1).getD .terminal)
  | .websearch => .rag_answer
  | .direct_answer => .terminal
  | .reporter => .terminal
  | .terminal => .terminal

/-- Runs `k` transitions of the workflow, consuming one `ClassifierOutcomes`
per step from the script `os`. -/
def graph_run (os : Nat → ClassifierOutcomes) : Nat → Node → Node
  | 0, n => n
  | k + 1, n => graph_run (fun i => os (i + 1)) k (graph_step (os 0) n)

/-- An adversarial grader script: the hallucination grader always answers
`False` (generation never grounded), so the self-critique edge always yields
`"not supported"`. -/
def always_not_supported : Nat → ClassifierOutcomes :=
  fun _ => { route := .vector_store, web_search_flag := false,
             grounded := false, useful := false }

/-! ### agentic_rag nodes: coordinator and grade_documents -/

/-- Embeds `coordinator` (nodes/coordinator.py).  The source evaluates
`messages[-1]` *before* its `if messages` guard, so the empty list raises
`IndexError` (the `Except` error).  Otherwise the question is the content of
the last message when it is a `HumanMessage`, else the empty string. -/
def coordinator (messages : List LCMessage) : Except Unit LCContent :=
  match messages.getLast? with
  | none => .error ()
  | some last_message =>
      .ok (if !messages.isEmpty then
             match last_message with
             | .human c => c
             | _ => .str ""
           else .str "")

/-- Embeds the loop body of `grade_documents` (nodes/grade_documents.py,
lines 30-57): a left fold over the retrieved documents, appending each
document graded `"yes"` (case-insensitive) and setting `web_search` when any
document is dropped.  `retrieval_grader` is the oracle
`(question, page_content) -> binary_score : str`. -/
def grade_documents (retrieval_grader : String → String → String)
    (question : String) (documents : List Document) :
    List Document × Bool × String :=
  let r := documents.foldl
    (fun (acc : List Document × Bool) document =>
      let grade := retrieval_grader question document.page_content
      if grade.toLower == "yes" then (acc.1 ++ [document], acc.2)
      else (acc.1, true))
    ([], false)
  (r.1, r.2, question)

/-- Relevance predicate the filter implements: the grader's answer,
lower-cased, equals `"yes"`. -/
def gradedRelevant (retrieval_grader : String → String → String)
    (question : String) (d : Document) : Bool :=
  (retrieval_grader question d.page_content).toLower == "yes"

/-! ### User input handling (message_utils.py, handle_input) -/

/-- Embeds `UserInput` (app/schema/user_input.py): `content`, optional
`resume` payload, optional `thread_id`. -/
structure UserInput where
  content : String
  resume : Option Json := none
  thread_id : Option String := none

/-- The kwargs `handle_input` builds for the agent invocation: the `input`
message list and the `thread_id` placed in the run config.  The source puts
nothing else in `kwargs`; in particular no resume command. -/
structure AgentKwargs where
  input_messages : List LCMessage
  config_thread_id : String
deriving Repr

/-- Embeds `handle_input` (message_utils.py, lines 118-134).
`thread_id = user_input.thread_id or str(uuid.uuid4())` uses Python
truthiness, so an empty-string thread id is replaced by the fresh uuid.
The `input` is always `{"messages": [HumanMessage(content=user_input.content)]}`;
the `resume` field of `UserInput` is never read. -/
def handle_input (user_input : UserInput) (fresh_uuid : String) : AgentKwargs :=
  let thread_id :=
    match user_input.thread_id with
    | some t => if t == "" then fresh_uuid else t
    | none => fresh_uuid
  { input_messages := [.human (.str user_input.content)],
    config_thread_id := thread_id }

/-! ### The streaming generator (message_utils.py, streaming_message_generator) -/

/-- The value attached to one node key of an `"updates"` stream event:
`None` (falsy, replaced by `{}` via `updates or {}`), a node-update dict whose
`"messages"` key may be absent, or a non-empty tuple — which is what langgraph
yields under the `"__interrupt__"` key.  Calling `.get` on a tuple raises
`AttributeError`. -/
inductive UpdateVal where
  | noneV
  | dict (msgs : Option (List LCMessage))
  | tup
deriving Repr

/-- The payload of a `"messages"`-mode stream event: the streamed message,
which the source checks with `isinstance(msg, AIMessageChunk)`. -/
inductive StreamMsg where
  | aiChunk (content : LCContent)
  | notChunk
deriving Repr

/-- One item yielded by `agent.astream(..., stream_mode=["updates",
"messages", "custom"])`: a non-tuple item (skipped by the source), or a
`(stream_mode, event)` pair for each of the three modes. -/
inductive StreamItem where
  | notTuple
  | updates (items : List (String × UpdateVal))
  | messages (msg : StreamMsg)
  | custom
deriving Repr

/-- Embeds the `new_messages` collection loop (`for _, updates in
event.items(): ...`).  A tuple value raises `AttributeError` before any yield
of this event, so the error discards the partial list. -/
def collect_update_messages :
    List (String × UpdateVal) → Except Unit (List LCMessage)
  | [] => .ok []
  | (_, .noneV) :: rest => collect_update_messages rest
  | (_, .dict none) :: rest => collect_update_messages rest
  | (_, .dict (some ms)) :: rest =>
      (collect_update_messages rest).map (ms ++ ·)
  | (_, .tup) :: _ => .error ()

/-- One event the generator yields on the SSE wire, before serialization:
`data: {"type": "token"|"message"|"error", "content": ...}` payloads and the
terminal `data: [DONE]` sentinel. -/
inductive WireEvent where
  | token (s : String)
  | message (cm : ChatMessage)
  | error (s : String)
  | done
deriving Repr

/-- The per-message conversion step of the generator: a conversion failure is
isolated into a single `error` event (`except` block, lines 94-97), otherwise
a `message` event carrying the `ChatMessage` is yielded. -/
def wire_of_message (m : LCMessage) : WireEvent :=
  match langchain_to_chat_message m with
  | .ok cm => .message cm
  | .error _ => .error "Unexpected error"

/-- Processes one stream item into its yielded wire events.  The `Except`
error marks an exception escaping to the generator's outer handler: the
`AttributeError` from an interrupt tuple, or a conversion error inside the
token yield.  Such an exception yields nothing from the item itself. -/
def processItem : StreamItem → Except Unit (List WireEvent)
  | .notTuple => .ok []
  | .custom => .ok []
  | .updates its =>
      (collect_update_messages its).map (List.map wire_of_message)
  | .messages .notChunk => .ok []
  | .messages (.aiChunk c) =>
      if c.truthy then
        match convert_message_content_to_string c with
        | .ok s => .ok [.token s]
        | .error _ => .error ()
      else .ok []

/-- Folds the `async for` over the stream items: events are emitted in order
until an item raises, which aborts the loop (second component `true`). -/
def genRun : List StreamItem → List WireEvent × Bool
  | [] => ([], false)
  | i :: rest =>
    match processItem i with
    | .error _ => ([], true)
    | .ok outs =>
      let r := genRun rest
      (outs ++ r.1, r.2)

/-- One execution of the underlying `astream` iterator: the items it yields,
and whether it raises after yielding them (covering both normal completion
and a raising execution; a suspension simply ends the iterator after an
interrupt update). -/
structure StreamRun where
  events : List StreamItem
  raisesAtEnd : Bool
deriving Repr

/-- Embeds `streaming_message_generator` (message_utils.py, lines 66-115):
the events of the loop body, then the `except` handler's single error event
when the loop or the iterator raised, then the `finally` sentinel. -/
def streaming_message_generator (run : StreamRun) : List WireEvent :=
  let r := genRun run.events
  r.1
    ++ (if r.2 then [.error "Internal server error"]
        else if run.raisesAtEnd then [.error "Internal server error"]
        else [])
    ++ [.done]

/-! ### SSE serialization of the wire events -/

/-- JSON string escaping as `json.dumps` performs it for the characters that
occur here (quote, backslash, and the common control characters). -/
def jsonEscapeChar (c : Char) : String :=
  if c = '\"' then "\\\""
  else if c = '\\' then "\\\\"
  else if c = '\n' then "\\n"
  else if c = '\r' then "\\r"
  else if c = '\t' then "\\t"
  else String.singleton c

/-- A JSON string literal: quoted and escaped. -/
def jsonQuote (s : String) : String :=
  "\"" ++ String.join (s.data.map jsonEscapeChar) ++ "\""

mutual

/-- Serializes a JSON value the way `json.dumps` does with default
separators (`", "` between items, `": "` after keys). -/
def Json.dump : Json → String
  | .null => "null"
  | .bool true => "true"
  | .bool false => "false"
  | .num n => toString n
  | .str s => jsonQuote s
  | .arr xs => "[" ++ Json.dumpList xs ++ "]"
  | .obj fs => "\x7b" ++ Json.dumpObj fs ++ "\x7d"

/-- Comma-joined serialization of a JSON array's elements. -/
def Json.dumpList : List Json → String
  | [] => ""
  | [x] => Json.dump x
  | x :: xs => Json.dump x ++ ", " ++ Json.dumpList xs

/-- Comma-joined serialization of a JSON object's key/value pairs. -/
def Json.dumpObj : List (String × Json) → String
  | [] => ""
  | [(k, v)] => jsonQuote k ++ ": " ++ Json.dump v
  | (k, v) :: fs => jsonQuote k ++ ": " ++ Json.dump v ++ ", " ++ Json.dumpObj fs

end

/-- The `model_dump` of a `ToolCall` as a JSON object. -/
def ToolCall.toJson (tc : ToolCall) : Json :=
  .obj [("name", .str tc.name), ("args", .obj tc.args),
        ("id", match tc.id with | some i => .str i | none => .null)]

/-- The `model_dump` of the server `ChatMessage` as a JSON object, keys in
pydantic field order. -/
def ChatMessage.toJson (cm : ChatMessage) : Json :=
  .obj [("type", .str cm.type.toStr),
        ("content", .str cm.content),
        ("tool_calls", .arr (cm.tool_calls.map ToolCall.toJson)),
        ("tool_call_id",
          match cm.tool_call_id with | some i => .str i | none => .null),
        ("response_metadata", .obj cm.response_metadata),
        ("action_requests", .arr cm.action_requests),
        ("review_configs", .arr cm.review_configs)]

/-- The wire payload dict of a non-sentinel event:
`{"type": ..., "content": ...}`. -/
def wirePayload : WireEvent → Json
  | .token s => .obj [("type", .str "token"), ("content", .str s)]
  | .message cm => .obj [("type", .str "message"), ("content", cm.toJson)]
  | .error s => .obj [("type", .str "error"), ("content", .str s)]
  | .done => .obj []

/-- The literal SSE line of one wire event: `f"data: {json.dumps(...)}\n\n"`
for payload events, and the literal `"data: [DONE]\n\n"` sentinel. -/
def sse_line : WireEvent → String
  | .done => "data: [DONE]\n\n"
  | ev => "data: " ++ (wirePayload ev).dump ++ "\n\n"

/-! ### Client-side decoding (schemas/chat.py, agent_client._parse_stream_line) -/

/-- Client-side `ChatMessage` (app/schemas/chat.py, lines 27-59): its `type`
is `Literal["human", "ai", "tool", "custom"]` — there is no `"interrupt"`
member — and it adds `run_id` / `custom_data` fields with defaults. -/
structure ClientChatMessage where
  type : String
  content : String
  tool_calls : List ToolCall := []
  tool_call_id : Option String := none
  run_id : Option String := none
  response_metadata : List (String × Json) := []
  custom_data : List (String × Json) := []
deriving Repr

/-- Decoding a streamed `message` event on the client:
`ChatMessage.model_validate(parsed["content"])` against the client schema.
`json.dumps`/`json.loads` round-trips the payload dict, so validation acts on
the server `model_dump` directly: the `type` literal is checked, shared fields
are copied, unknown keys (`action_requests`, `review_configs`) are ignored
(pydantic's default `extra="ignore"`), and `run_id` / `custom_data` take their
defaults. -/
def client_validate_dump (cm : ChatMessage) : Option ClientChatMessage :=
  let ty := cm.type.toStr
  if ty == "human" || ty == "ai" || ty == "tool" || ty == "custom" then
    some { type := ty, content := cm.content, tool_calls := cm.tool_calls,
           tool_call_id := cm.tool_call_id,
           response_metadata := cm.response_metadata }
  else
    none

/-! ## Helper lemmas -/

/-- Unfolding the grade_documents fold: starting from any accumulator, the
fold appends the relevant documents in order and ors the dropped-flag. -/
theorem grade_documents_foldl (g : String → String → String) (q : String) :
    ∀ (docs : List Document) (acc : List Document) (b : Bool),
      docs.foldl
        (fun (acc : List Document × Bool) document =>
          let grade := g q document.page_content
          if grade.toLower == "yes" then (acc.1 ++ [document], acc.2)
          else (acc.1, true))
        (acc, b)
      = (acc ++ docs.filter (gradedRelevant g q),
         b || docs.any fun d => !(gradedRelevant g q d)) := by
  intro docs
  induction docs with
  | nil => intro acc b; simp
  | cons d rest ih =>
    intro acc b
    by_cases h : gradedRelevant g q d
    · have hg : (g q d.page_content).toLower == "yes" := h
      simp only [List.foldl_cons, hg, if_pos rfl, List.filter_cons, List.any_cons]
      rw [ih]
      simp [h, List.append_assoc, gradedRelevant] at *
      simp [hg]
    · have hg : ((g q d.page_content).toLower == "yes") = false := by
        simpa [gradedRelevant] using h
      simp only [List.foldl_cons, hg, List.filter_cons, List.any_cons]
      rw [ih]
      simp [gradedRelevant, hg]

/-- A message accepted by `langchain_to_chat_message` is tagged human, ai or
tool; the interrupt tag is never produced. -/
theorem lc_to_cm_type (m : LCMessage) (cm : ChatMessage)
    (h : langchain_to_chat_message m = .ok cm) :
    cm.type = .human ∨ cm.type = .ai ∨ cm.type = .tool := by
  cases m with
  | human c =>
    cases hc : convert_message_content_to_string c with
    | ok s =>
      simp [langchain_to_chat_message, hc, Except.map] at h
      simp [← h]
    | error e => simp [langchain_to_chat_message, hc, Except.map] at h
  | ai c tcs meta =>
    cases hc : convert_message_content_to_string c with
    | ok s =>
      simp only [langchain_to_chat_message, hc, Except.map, Except.ok.injEq] at h
      by_cases h1 : tcs.isEmpty <;> by_cases h2 : meta.isEmpty <;>
        simp [h1, h2] at h <;> simp [← h]
    | error e => simp [langchain_to_chat_message, hc, Except.map] at h
  | tool c tcid =>
    cases hc : convert_message_content_to_string c with
    | ok s =>
      simp [langchain_to_chat_message, hc, Except.map] at h
      simp [← h]
    | error e => simp [langchain_to_chat_message, hc, Except.map] at h
  | other => simp [langchain_to_chat_message] at h

/-- Client validation succeeds on every server message whose tag is not
interrupt, copying the shared fields. -/
theorem client_validate_dump_of_ne_interrupt (cm : ChatMessage)
    (h : cm.type ≠ .interrupt) :
    client_validate_dump cm
      = some { type := cm.type.toStr, content := cm.content,
               tool_calls := cm.tool_calls, tool_call_id := cm.tool_call_id,
               response_metadata := cm.response_metadata } := by
  cases ht : cm.type
  · simp [client_validate_dump, CMType.toStr, ht]
  · simp [client_validate_dump, CMType.toStr, ht]
  · simp [client_validate_dump, CMType.toStr, ht]
  · exact absurd ht h

/-- A successfully processed stream item yields only token, message and error
events, never the sentinel. -/
theorem processItem_no_done (i : StreamItem) (outs : List WireEvent)
    (h : processItem i = .ok outs) : WireEvent.done ∉ outs := by
  cases i with
  | notTuple => simp [processItem] at h; simp_all
  | custom => simp [processItem] at h; simp_all
  | updates its =>
    cases hc : collect_update_messages its with
    | ok ms =>
      simp [processItem, hc, Except.map] at h
      intro hmem
      rw [← h] at hmem
      obtain ⟨m, _, hm⟩ := List.mem_map.mp hmem
      unfold wire_of_message at hm
      cases hmm : langchain_to_chat_message m <;> simp [hmm] at hm
    | error e => simp [processItem, hc, Except.map] at h
  | messages msg =>
    cases msg with
    | notChunk => simp [processItem] at h; simp_all
    | aiChunk c =>
      by_cases ht : c.truthy
      · cases hc : convert_message_content_to_string c with
        | ok s => simp [processItem, ht, hc] at h; rw [← h]; simp
        | error e => simp [processItem, ht, hc] at h
      · simp [processItem, ht] at h
        simp_all

/-- The loop body of the generator never emits the sentinel. -/
theorem genRun_no_done : ∀ evs : List StreamItem,
    WireEvent.done ∉ (genRun evs).1 := by
  intro evs
  induction evs with
  | nil => simp [genRun]
  | cons i rest ih =>
    cases hp : processItem i with
    | error e => simp [genRun, hp]
    | ok outs =>
      simp only [genRun, hp, List.mem_append]
      intro hmem
      rcases hmem with hmem | hmem
      · exact processItem_no_done i outs hp hmem
      · exact ih hmem

/-- The generator output splits as a done-free prefix followed by the
sentinel. -/
theorem generator_eq_concat (run : StreamRun) :
    ∃ front : List WireEvent,
      streaming_message_generator run = front ++ [WireEvent.done]
      ∧ WireEvent.done ∉ front := by
  refine ⟨(genRun run.events).1
    ++ (if (genRun run.events).2 then [.error "Internal server error"]
        else if run.raisesAtEnd then [.error "Internal server error"]
        else []), ?_, ?_⟩
  · simp [streaming_message_generator, List.append_assoc]
  · simp only [List.mem_append]
    rintro (hmem | hmem)
    · exact genRun_no_done run.events hmem
    · split at hmem <;> simp_all

/-- The generator's final wire event is always the sentinel. -/
theorem generator_last_done (run : StreamRun) :
    (streaming_message_generator run).getLast? = some WireEvent.done := by
  obtain ⟨front, heq, -⟩ := generator_eq_concat run
  rw [heq]
  exact List.getLast?_concat front

/-- When a stream item is processed without raising, the generator emits its
events followed by the generator of the remaining stream. -/
theorem generator_cons_ok (i : StreamItem) (outs : List WireEvent)
    (rest : List StreamItem) (r : Bool) (h : processItem i = .ok outs) :
    streaming_message_generator ⟨i :: rest, r⟩
      = outs ++ streaming_message_generator ⟨rest, r⟩ := by
  simp only [streaming_message_generator, genRun, h]
  simp [List.append_assoc]

/-- The serialization of a payload object can never collide with the literal
sentinel line: the seventh character is an opening brace, not a bracket. -/
theorem data_brace_ne_done_line (a b : String) :
    ¬("data: " ++ ("\x7b" ++ a ++ "\x7d") ++ b = "data: [DONE]\n\n") := by
  intro h
  have h2 := congrArg String.data h
  simp only [String.data_append] at h2
  simp at h2

/-- Serializing an object-valued JSON payload yields braces around the
members. -/
theorem json_dump_obj (fs : List (String × Json)) :
    Json.dump (.obj fs) = "\x7b" ++ Json.dumpObj fs ++ "\x7d" := by
  simp [Json.dump]

/-- Only the sentinel event serializes to the sentinel line. -/
theorem sse_line_eq_done_iff (ev : WireEvent) :
    sse_line ev = "data: [DONE]\n\n" ↔ ev = .done := by
  constructor
  · intro h
    cases ev with
    | done => rfl
    | token s =>
      have h2 : "data: "
          ++ (Json.obj [("type", .str "token"), ("content", .str s)]).dump
          ++ "\n\n" = "data: [DONE]\n\n" := h
      rw [json_dump_obj] at h2
      exact absurd h2 (data_brace_ne_done_line _ _)
    | message cm =>
      have h2 : "data: "
          ++ (Json.obj [("type", .str "message"), ("content", cm.toJson)]).dump
          ++ "\n\n" = "data: [DONE]\n\n" := h
      rw [json_dump_obj] at h2
      exact absurd h2 (data_brace_ne_done_line _ _)
    | error s =>
      have h2 : "data: "
          ++ (Json.obj [("type", .str "error"), ("content", .str s)]).dump
          ++ "\n\n" = "data: [DONE]\n\n" := h
      rw [json_dump_obj] at h2
      exact absurd h2 (data_brace_ne_done_line _ _)
  · rintro rfl; rfl

/-- Tokens found in the loop-body output trace back to a truthy AI chunk in
the stream whose converted content is the token's text. -/
theorem token_in_genRun : ∀ (evs : List StreamItem) (s : String),
    WireEvent.token s ∈ (genRun evs).1 →
    ∃ c : LCContent, StreamItem.messages (StreamMsg.aiChunk c) ∈ evs
      ∧ c.truthy = true ∧ convert_message_content_to_string c = .ok s := by
  intro evs
  induction evs with
  | nil => intro s h; simp [genRun] at h
  | cons i rest ih =>
    intro s h
    cases hp : processItem i with
    | error e => simp [genRun, hp] at h
    | ok outs =>
      simp only [genRun, hp, List.mem_append] at h
      rcases h with h | h
      · cases i with
        | notTuple => simp [processItem] at hp; simp_all
        | custom => simp [processItem] at hp; simp_all
        | updates its =>
          cases hc : collect_update_messages its with
          | ok ms =>
            simp [processItem, hc, Except.map] at hp
            rw [← hp] at h
            obtain ⟨m, _, hm⟩ := List.mem_map.mp h
            unfold wire_of_message at hm
            cases hmm : langchain_to_chat_message m <;> simp [hmm] at hm
          | error e => simp [processItem, hc, Except.map] at hp
        | messages msg =>
          cases msg with
          | notChunk => simp [processItem] at hp; simp_all
          | aiChunk c =>
            by_cases ht : c.truthy
            · cases hcv : convert_message_content_to_string c with
              | ok t =>
                simp [processItem, ht, hcv] at hp
                rw [← hp] at h
                simp at h
                exact ⟨c, List.mem_cons_self _ _, ht, by rw [hcv, h]⟩
              | error e => simp [processItem, ht, hcv] at hp
            · simp [processItem, ht] at hp
              simp_all
      · obtain ⟨c, hmem, htr, hcv⟩ := ih s h
        exact ⟨c, List.mem_cons_of_mem _ hmem, htr, hcv⟩

/-! ## Claim theorems -/

/-- C1.  The claim states that a turn submission with `resume` present
continues the suspended thread with the decisions applied and does not submit
`content` as fresh human input.  The code contradicts this: `handle_input`
never reads `UserInput.resume`; for a concrete resume submission the produced
kwargs contain exactly one fresh `HumanMessage` with the submitted content and
nothing else, and in general the result is identical to the one for the same
input with the resume payload removed. -/
theorem handle_input_ignores_resume :
    (handle_input
        { content := "continue please",
          resume := some (.obj
            [("decisions", .arr [.obj [("type", .str "approve")]])]),
          thread_id := some "thread-1" } "fresh-uuid"
      = { input_messages := [.human (.str "continue please")],
          config_thread_id := "thread-1" })
    ∧ ∀ (u : UserInput) (f : String),
        handle_input u f = handle_input { u with resume := none } f :=
  ⟨rfl, fun _ _ => rfl⟩

/-- C4.  The claim states the hallucination-regeneration cycle runs at most a
fixed maximum number of times for every sequence of grader verdicts.  The code
has no such ceiling: under the verdict script that always grades the
generation ungrounded (`"not supported"`), every number of steps leaves the
control loop at `rag_answer`, which is never the terminal state — the loop
cycles indefinitely. -/
theorem rag_retry_loop_unbounded :
    ∀ k : Nat,
      graph_run always_not_supported k .rag_answer = .rag_answer
      ∧ Node.rag_answer ≠ Node.terminal := by
  intro k
  refine ⟨?_, by decide⟩
  induction k with
  | zero => rfl
  | succ n ih =>
    show graph_run always_not_supported n
      (graph_step (always_not_supported 0) .rag_answer) = .rag_answer
    exact ih

/-- C5.  The self-critique classifier returns exactly one of the three
verdicts: `"not supported"` exactly when the hallucination grader judges the
generation ungrounded — and then the answer grader is never invoked;
`"useful"` exactly when grounded and useful; `"not useful"` exactly when
grounded but not useful.  The hallucination grader is always the first oracle
invoked. -/
theorem self_critique_three_outcomes :
    ∀ (hg ag : String → String → Bool) (q : String) (docs : List Document)
      (gen : String),
      ((grade_generation hg ag q docs gen).1 = "not supported"
        ∨ (grade_generation hg ag q docs gen).1 = "useful"
        ∨ (grade_generation hg ag q docs gen).1 = "not useful")
      ∧ ((grade_generation hg ag q docs gen).1 = "not supported"
          ↔ hg (String.intercalate "\n\n" (docs.map Document.page_content)) gen
              = false)
      ∧ (GraderCall.answer ∈ (grade_generation hg ag q docs gen).2
          ↔ hg (String.intercalate "\n\n" (docs.map Document.page_content)) gen
              = true)
      ∧ ((grade_generation hg ag q docs gen).1 = "useful"
          ↔ (hg (String.intercalate "\n\n" (docs.map Document.page_content)) gen
              = true ∧ ag q gen = true))
      ∧ ((grade_generation hg ag q docs gen).1 = "not useful"
          ↔ (hg (String.intercalate "\n\n" (docs.map Document.page_content)) gen
              = true ∧ ag q gen = false))
      ∧ (grade_generation hg ag q docs gen).2.head?
          = some GraderCall.hallucination := by
  intro hg ag q docs gen
  unfold grade_generation
  by_cases h1 : hg (String.intercalate "\n\n" (docs.map Document.page_content)) gen <;>
    by_cases h2 : ag q gen <;> simp [h1, h2]

/-- C6.  `grade_documents` keeps exactly the documents the retrieval grader
scores `"yes"` (case-insensitively), in input order (an order-preserving
filter), sets `web_search` exactly when some document was dropped, and passes
the question through unchanged. -/
theorem grade_documents_order_preserving_filter :
    ∀ (g : String → String → String) (q : String) (docs : List Document),
      (grade_documents g q docs).1 = docs.filter (gradedRelevant g q)
      ∧ (grade_documents g q docs).2.1
          = docs.any (fun d => !(gradedRelevant g q d))
      ∧ (grade_documents g q docs).2.2 = q := by
  intro g q docs
  unfold grade_documents
  rw [grade_documents_foldl]
  simp

/-- C7.  The claim states the coordinator handles every (possibly empty)
message list without raising.  The code evaluates `messages[-1]` before its
emptiness guard, so the empty list raises `IndexError`; on every non-empty
list it returns normally: the content of the last message when that message
is human, and the empty string otherwise. -/
theorem coordinator_empty_messages_raises :
    coordinator [] = .error ()
    ∧ ∀ (ms : List LCMessage) (m : LCMessage),
        coordinator (ms ++ [m])
          = .ok (match m with | .human c => c | _ => .str "") := by
  refine ⟨rfl, ?_⟩
  intro ms m
  unfold coordinator
  rw [List.getLast?_concat]
  have hne : (ms ++ [m]).isEmpty = false := by cases ms <;> rfl
  rw [hne]
  cases m <;> rfl

/-- C3.  Every stream the generator produces ends with the literal line
`data: [DONE]`, emitted exactly once and as the final event — for every
execution of the underlying stream: normal completion, suspension after an
interrupt update, an item that raises mid-stream, and an iterator that raises
at the end are all instances of the quantified `StreamRun`. -/
theorem stream_ends_with_done_sentinel :
    ∀ run : StreamRun,
      ((streaming_message_generator run).map sse_line).getLast?
          = some "data: [DONE]\n\n"
      ∧ ((streaming_message_generator run).map sse_line).count
          "data: [DONE]\n\n" = 1 := by
  intro run
  obtain ⟨front, heq, hnot⟩ := generator_eq_concat run
  rw [heq, List.map_append]
  simp only [List.map_cons, List.map_nil]
  constructor
  · rw [List.getLast?_concat]
    rfl
  · rw [List.count_append]
    have h0 : (front.map sse_line).count "data: [DONE]\n\n" = 0 := by
      refine List.count_eq_zero.mpr ?_
      intro hmem
      obtain ⟨ev, hev, hse⟩ := List.mem_map.mp hmem
      exact hnot ((sse_line_eq_done_iff ev).mp hse ▸ hev)
    rw [h0]
    simp [sse_line]

/-- C9.  A conversion failure of one streamed message is isolated: the
generator emits exactly one `error` event in that message's position, still
emits the events of the other messages of the same update and of all later
stream items, and still terminates with the sentinel. -/
theorem stream_parse_error_isolated :
    ∀ (its : List (String × UpdateVal)) (l₁ l₂ : List LCMessage)
      (bad : LCMessage) (rest : List StreamItem) (r : Bool),
      collect_update_messages its = .ok (l₁ ++ bad :: l₂) →
      langchain_to_chat_message bad = .error () →
      (streaming_message_generator ⟨.updates its :: rest, r⟩
        = l₁.map wire_of_message
          ++ WireEvent.error "Unexpected error" :: l₂.map wire_of_message
          ++ streaming_message_generator ⟨rest, r⟩)
      ∧ (streaming_message_generator ⟨.updates its :: rest, r⟩).getLast?
          = some WireEvent.done := by
  intro its l₁ l₂ bad rest r hc hbad
  have hp : processItem (.updates its)
      = .ok ((l₁ ++ bad :: l₂).map wire_of_message) := by
    simp [processItem, hc, Except.map]
  refine ⟨?_, generator_last_done _⟩
  rw [generator_cons_ok _ _ _ _ hp, List.map_append, List.map_cons]
  have hw : wire_of_message bad = .error "Unexpected error" := by
    unfold wire_of_message; rw [hbad]
  rw [hw]

/-- C9 witness: a stream whose only update carries one unconvertible message
(an unsupported message class) yields precisely the isolated error event and
the sentinel. -/
theorem stream_parse_error_isolated_witness :
    (collect_update_messages [("agent", .dict (some [LCMessage.other]))]
        = .ok ([] ++ LCMessage.other :: []))
    ∧ (langchain_to_chat_message .other = .error ())
    ∧ ((streaming_message_generator
          ⟨[.updates [("agent", .dict (some [.other]))]], false⟩
        = List.map wire_of_message []
          ++ WireEvent.error "Unexpected error" :: List.map wire_of_message []
          ++ streaming_message_generator ⟨[], false⟩)
      ∧ (streaming_message_generator
          ⟨[.updates [("agent", .dict (some [.other]))]], false⟩).getLast?
          = some WireEvent.done) :=
  ⟨rfl, rfl,
    stream_parse_error_isolated [("agent", .dict (some [.other]))] [] []
      .other [] false rfl rfl⟩

/-- C10 counterexample.  The claim states no `token` event is emitted when
the converted content string is empty.  The code checks truthiness of the
*raw* content (`if content:`), not of the converted string: an
`AIMessageChunk` whose content is a non-empty list with no text parts (e.g. a
single `tool_use` block) converts to the empty string, yet a `token` event
carrying empty text is emitted. -/
theorem empty_token_event_emitted :
    convert_message_content_to_string (.items [.item "tool_use" none]) = .ok ""
    ∧ (LCContent.items [.item "tool_use" none]).truthy = true
    ∧ streaming_message_generator
        ⟨[.messages (.aiChunk (.items [.item "tool_use" none]))], false⟩
      = [WireEvent.token "", WireEvent.done] :=
  ⟨rfl, rfl, rfl⟩

/-- C10 amended.  Every `token` event does originate from an
`AIMessageChunk`, and only chunks with truthy raw content emit one; the
token's text is the converted content string — which may be empty. -/
theorem token_events_from_ai_chunks :
    ∀ (run : StreamRun) (s : String),
      WireEvent.token s ∈ streaming_message_generator run →
      ∃ c : LCContent, StreamItem.messages (StreamMsg.aiChunk c) ∈ run.events
        ∧ c.truthy = true ∧ convert_message_content_to_string c = .ok s := by
  intro run s h
  simp only [streaming_message_generator, List.mem_append] at h
  rcases h with (h | h) | h
  · exact token_in_genRun run.events s h
  · exfalso
    split at h
    · simp at h
    · split at h <;> simp at h
  · exfalso
    simp at h

/-- C10 witness: a plain text chunk produces its token event, and the amended
theorem traces it back to that chunk. -/
theorem token_events_from_ai_chunks_witness :
    (WireEvent.token "hi" ∈ streaming_message_generator
        ⟨[.messages (.aiChunk (.str "hi"))], false⟩)
    ∧ ∃ c : LCContent,
        StreamItem.messages (StreamMsg.aiChunk c)
            ∈ ([.messages (.aiChunk (.str "hi"))] : List StreamItem)
        ∧ c.truthy = true ∧ convert_message_content_to_string c = .ok "hi" :=
  ⟨List.mem_cons_self _ _,
    token_events_from_ai_chunks ⟨[.messages (.aiChunk (.str "hi"))], false⟩ "hi"
      (List.mem_cons_self _ _)⟩

/-- C2.  The claim states a reviewed-tool turn emits an `interrupt`-type
message with the pending action requests and review configs before the
sentinel.  The code does the opposite: on the `__interrupt__` update langgraph
yields for a reviewed tool, the generator calls `.get` on the interrupt tuple,
raising `AttributeError`; the stream collapses to a generic `error` event plus
the sentinel.  Moreover no code path produces an interrupt-tagged
`ChatMessage` at all: `langchain_to_chat_message` only ever returns the
human, ai and tool tags. -/
theorem interrupt_update_crashes_stream :
    (streaming_message_generator ⟨[.updates [("__interrupt__", .tup)]], false⟩
      = [WireEvent.error "Internal server error", WireEvent.done])
    ∧ ∀ m : LCMessage,
        (langchain_to_chat_message m).toOption.map ChatMessage.type
          ≠ some CMType.interrupt := by
  refine ⟨rfl, ?_⟩
  intro m
  cases hm : langchain_to_chat_message m with
  | ok cm =>
    rcases lc_to_cm_type m cm hm with h | h | h <;>
      simp [Except.toOption, h]
  | error e => simp [Except.toOption]

/-- C8 counterexample.  The claim includes the `interrupt` variant in the
encode/decode round trip.  An interrupt-tagged server message (constructible
per app/schema/chat_message.py) fails client validation: the client schema's
`type` literal (app/schemas/chat.py) has no `"interrupt"` member, so decoding
returns no value and no field is preserved. -/
theorem interrupt_message_not_client_decodable :
    client_validate_dump
        { type := .interrupt,
          content := "Tool execution pending approval: write_file",
          action_requests := [.obj [("name", .str "write_file")]],
          review_configs := [.obj [("allowed_decisions",
            .arr [.str "approve", .str "reject", .str "edit"])]] }
      = none := rfl

/-- C8 amended.  For the message variants the encoder actually produces —
human, ai (with tool calls and response metadata) and tool (with
tool_call_id) — encoding to the wire dict and validating against the client
schema succeeds and preserves all observable fields: type, content,
tool_calls, tool_call_id. -/
theorem chat_message_roundtrip_human_ai_tool :
    ∀ (m : LCMessage) (cm : ChatMessage),
      langchain_to_chat_message m = .ok cm →
      ∃ client : ClientChatMessage,
        client_validate_dump cm = some client
        ∧ client.type = cm.type.toStr
        ∧ client.content = cm.content
        ∧ client.tool_calls = cm.tool_calls
        ∧ client.tool_call_id = cm.tool_call_id := by
  intro m cm hm
  have hne : cm.type ≠ .interrupt := by
    rcases lc_to_cm_type m cm hm with h | h | h <;> simp [h]
  exact ⟨_, client_validate_dump_of_ne_interrupt cm hne, rfl, rfl, rfl, rfl⟩

/-- C8 witness: an AI message with one tool call and response metadata
round-trips with all observable fields intact. -/
theorem chat_message_roundtrip_witness :
    (langchain_to_chat_message
        (.ai (.str "calling tool")
          [⟨"write_file", [("filename", .str "notes.txt")], some "call_1"⟩]
          [("model_name", .str "qwen-plus")])
      = .ok { type := .ai, content := "calling tool",
              tool_calls :=
                [⟨"write_file", [("filename", .str "notes.txt")], some "call_1"⟩],
              response_metadata := [("model_name", .str "qwen-plus")] })
    ∧ ∃ client : ClientChatMessage,
        client_validate_dump
            { type := .ai, content := "calling tool",
              tool_calls :=
                [⟨"write_file", [("filename", .str "notes.txt")], some "call_1"⟩],
              response_metadata := [("model_name", .str "qwen-plus")] }
          = some client
        ∧ client.type = "ai"
        ∧ client.content = "calling tool"
        ∧ client.tool_calls
            = [⟨"write_file", [("filename", .str "notes.txt")], some "call_1"⟩]
        ∧ client.tool_call_id = none :=
  ⟨rfl,
    chat_message_roundtrip_human_ai_tool
      (.ai (.str "calling tool")
        [⟨"write_file", [("filename", .str "notes.txt")], some "call_1"⟩]
        [("model_name", .str "qwen-plus")])
      _ rfl⟩

end AgentHub
